import Mathlib

/-!
Shallow embedding of the `victorboudet/llm` code-fixing CLI (src/main.py and
src/main2.py).

The repository contains two near-duplicate variants of the same pipeline.
Both are embedded here where they differ:
* `extract_code` — the fenced-code-block extraction shared by both files
  (main.py line 41-43, main2.py line 50-58; the two regexes
  `(?:python|\w*)` and `(?:python|\w+)?` accept exactly the same strings,
  see `matchFenceAt` below);
* `mergeSegment`, `rangeFixMainPy`, `rangeFixMain2Py` — the segment splice
  (main.py 113-116, main2.py 121-128);
* `validate_and_save_main`, `validate_and_save_main2` — the
  diff/confirm/backup/write controller (main.py 122-152, main2.py 136-178);
* `checkArgsMain`, `checkRangeMain2` — range validation (main.py 169-179,
  main2.py 82-85);
* `analyze_messages_main` and the four mode builders — the prompt builder
  of main.py (lines 52-106).

Strings are modelled as `List Char` for the character-level algorithms and
as `String` for prompt construction.  Python `\w`, `str.lower` and
`str.strip` are modelled on their ASCII behaviour, which covers every
character these programs produce themselves.
-/

/-- The backtick character U+0060, written by code point. -/
def fenceChar : Char := Char.ofNat 96

/-- The three-backtick fence delimiter looked for by the extraction regex. -/
def fenceChars : List Char := [fenceChar, fenceChar, fenceChar]

/-- Python regex `\w` on ASCII input: letters, digits and underscore. -/
def isWordChar (c : Char) : Bool := c.isAlphanum || c = '_'

/-- The characters removed by Python `str.strip()` (ASCII): space, tab,
line feed, carriage return, vertical tab, form feed. -/
def pyIsSpace (c : Char) : Bool :=
  c = ' ' || c = '\t' || c = '\n' || c = '\r' || c = Char.ofNat 11 || c = Char.ofNat 12

/-- Python `str.strip()`: drop whitespace from both ends. -/
def pyStrip (s : List Char) : List Char :=
  ((s.dropWhile pyIsSpace).reverse.dropWhile pyIsSpace).reverse

/-- Python `str.lower()` on ASCII input. -/
def pyLower (s : List Char) : List Char := s.map Char.toLower

/-- The lazy group `(.*?)` followed by the closing fence: the shortest text
standing before the next occurrence of three backticks, or `none` when no
closing fence exists. -/
def splitAtFence : List Char → Option (List Char)
  | [] => none
  | c :: rest =>
    if fenceChars.isPrefixOf (c :: rest) then some []
    else (splitAtFence rest).map (fun l => c :: l)

/-- One attempt of the regex `(?:python|\w*)\n(.*?)` + closing fence at a fixed
start position (main.py line 42 / main2.py line 57; both alternations accept
exactly a maximal run of word characters followed by a newline, because a
shorter run would leave a word character where `\n` is required). -/
def matchFenceAt (s : List Char) : Option (List Char) :=
  if fenceChars.isPrefixOf s then
    match (s.drop 3).dropWhile isWordChar with
    | [] => none
    | c :: rest => if c = '\n' then splitAtFence rest else none
  else none

/-- `re.search`: try the pattern at each start position from the left and
return the first full match's capture group. -/
def searchFence : List Char → Option (List Char)
  | [] => none
  | c :: rest =>
    match matchFenceAt (c :: rest) with
    | some cap => some cap
    | none => searchFence rest

/-- `extract_code` (main.py lines 41-43 / main2.py lines 50-58):
`match.group(1) if match else response_text.strip()`. -/
def extract_code (response_text : List Char) : List Char :=
  match searchFence response_text with
  | some cap => cap
  | none => pyStrip response_text


/-- Worker for `pySplitlinesKeep`: `acc` holds the current line reversed. -/
def splitKeepAux (acc : List Char) : List Char → List (List Char)
  | [] => if acc.isEmpty then [] else [acc.reverse]
  | '\r' :: '\n' :: rest => (acc.reverse ++ ['\r', '\n']) :: splitKeepAux [] rest
  | c :: rest =>
    if c = '\n' then (acc.reverse ++ ['\n']) :: splitKeepAux [] rest
    else if c = '\r' then (acc.reverse ++ ['\r']) :: splitKeepAux [] rest
    else splitKeepAux (c :: acc) rest

/-- Python `str.splitlines(keepends=True)` restricted to the terminators LF,
CR and CRLF (the files are read in universal-newline text mode, so the data
these programs split never contains the exotic Unicode line breaks). -/
def pySplitlinesKeep (s : List Char) : List (List Char) := splitKeepAux [] s

/-- Remove one trailing line terminator (LF, CR or CRLF) from a line. -/
def dropTerminator (l : List Char) : List Char :=
  match l.reverse with
  | '\n' :: '\r' :: rest => rest.reverse
  | '\n' :: rest => rest.reverse
  | '\r' :: rest => rest.reverse
  | _ => l

/-- Python `str.splitlines()` without keepends, same terminator set. -/
def pySplitlines (s : List Char) : List (List Char) :=
  (pySplitlinesKeep s).map dropTerminator


/-- Python `l[a:b]` for `0 ≤ a ≤ b`, clamping at the length as Python does. -/
def pySlice (l : List α) (a b : Nat) : List α := (l.drop a).take (b - a)

/-- The slice assignment `lines[start_line-1:end_line] = fixed_lines`
(main.py line 115 / main2.py line 127), faithful for `1 ≤ s` — Python's
negative-index semantics never arise because both programs validate
`start ≥ 1` first. -/
def mergeSegment (lines : List (List Char)) (s e : Nat)
    (fixedLines : List (List Char)) : List (List Char) :=
  lines.take (s - 1) ++ fixedLines ++ lines.drop e

/-- Result of the range-mode post-processing: whether a warning was logged,
and the merged line sequence. -/
structure RangeFixResult where
  warned : Bool
  merged : List (List Char)
deriving DecidableEq

/-- Range-mode post-processing of main.py (lines 113-116): split the extracted
fix keeping terminators and splice it over the 1-indexed slice
`[start, end]`.  main.py performs no line-count check, so no warning is ever
issued here. -/
def rangeFixMainPy (lines : List (List Char)) (s e : Nat)
    (fixText : List Char) : RangeFixResult :=
  ⟨false, mergeSegment lines s e (pySplitlinesKeep fixText)⟩

/-- Range-mode post-processing of main2.py (lines 121-128): the same splice,
preceded by `logger.warning` exactly when the fixed segment's line count
differs from `end_line - start_line + 1`. -/
def rangeFixMain2Py (lines : List (List Char)) (s e : Nat)
    (fixText : List Char) : RangeFixResult :=
  let fls := pySplitlinesKeep fixText
  ⟨decide (fls.length ≠ e - s + 1), mergeSegment lines s e fls⟩

/-- One chat message of the two-message completion call. -/
structure ChatMessage where
  role : String
  content : String
deriving DecidableEq

/-- Python truthiness of an optional string argument: `None` and the empty
string are falsy. -/
def truthyOpt : Option String → Bool
  | none => false
  | some s => !s.isEmpty

/-- The range-fix message pair of main.py (lines 54-68), with the selected
segment and the full file already rendered. -/
def rangeMessages (ext selected full : String) : List ChatMessage :=
  [⟨"system", "You are an expert code debugging assistant. Analyze the provided code segment, with the following rules:"
      ++ "The code is in " ++ ext
      ++ "- identify errors and provide a corrected version as a code snippet."
      ++ "- You must only send the corrected code in your response."
      ++ "- Fix any errors in the code."
      ++ "- Make improvements if necessary."
      ++ "- Check for security vulnerabilities and fix them if there are any."
      ++ "- You must have an optimised code"
      ++ "- Keep the same number of lines as the input"
      ++ "**- You DO NOT modify the context file**"⟩,
   ⟨"user", "Fix only this code segment:\n```" ++ ext ++ "\n" ++ selected ++ "\n```"
      ++ "Here the context file You DO NOT modify it:\n```" ++ ext ++ "\n" ++ full ++ "\n```"⟩]

/-- The error-guided message pair of main.py (lines 70-81). -/
def errorMessages (ext full err : String) : List ChatMessage :=
  [⟨"system", "You are an expert code debugging assistant. Analyze the provided code, with the following rules:"
      ++ "The code is in " ++ ext
      ++ "- identify errors and provide a corrected version as a code snippet."
      ++ "- You must only send the corrected code in your response."
      ++ "- Fix any errors in the code."
      ++ "- Make improvements if necessary."
      ++ "- Check for security vulnerabilities and fix them if there are any."
      ++ "- You must have an optimised code"⟩,
   ⟨"user", "Here is the code with the error:\n```" ++ ext ++ "\n" ++ full ++ "\n```"
      ++ "The error is: " ++ err⟩]

/-- The comment-annotation message pair of main.py (lines 83-94). -/
def commentsMessages (ext full : String) : List ChatMessage :=
  [⟨"system", "You are an expert code debugging assistant. Analyze the provided code, with the following rules:"
      ++ "The code is in " ++ ext
      ++ "- identify errors and provide a corrected version as a code snippet."
      ++ "- You must only send the corrected code in your response."
      ++ "- Fix any errors in the code."
      ++ "- Make improvements if necessary."
      ++ "- Check for security vulnerabilities and fix them if there are any."
      ++ "- You must have an optimised code"
      ++ "- You must add comments the code nicelly to understand it"⟩,
   ⟨"user", "Here is the code answer with the raw fixed code:\n```" ++ ext ++ "\n" ++ full ++ "\n```"⟩]

/-- The whole-file message pair of main.py (lines 96-106). -/
def defaultMessages (ext full : String) : List ChatMessage :=
  [⟨"system", "You are an expert code debugging assistant. Analyze the provided code, with the following rules:"
      ++ "The code is in " ++ ext
      ++ "- identify errors and provide a corrected version as a code snippet."
      ++ "- You must only send the corrected code in your response without any comments."
      ++ "- Fix any errors in the code."
      ++ "- Make improvements if necessary."
      ++ "- Check for security vulnerabilities and fix them if there are any."
      ++ "- You must have an optimised code"⟩,
   ⟨"user", "Here is the code with the error:\n```" ++ ext ++ "\n" ++ full ++ "\n```"⟩]

/-- The prompt-building `if`/`elif` chain of main.py's `analyze_and_fix_code`
(lines 52-106), translated branch by branch with the message texts inlined:
the range branch fires when both `start_line` and `end_line` are not `None`,
the error branch when `error` is truthy, the comments branch when `comments`
is truthy, and the default branch otherwise.  `selected` renders
`''.join(lines[start_line-1:end_line])` and `full` renders
`''.join(lines)`. -/
def analyze_messages_main (ext : String) (lines : List String)
    (startLine endLine : Option Nat) (error comments : Option String) : List ChatMessage :=
  let full := String.join lines
  match startLine, endLine with
  | some s, some e =>
    let selected := String.join (pySlice lines (s - 1) e)
    [⟨"system", "You are an expert code debugging assistant. Analyze the provided code segment, with the following rules:"
        ++ "The code is in " ++ ext
        ++ "- identify errors and provide a corrected version as a code snippet."
        ++ "- You must only send the corrected code in your response."
        ++ "- Fix any errors in the code."
        ++ "- Make improvements if necessary."
        ++ "- Check for security vulnerabilities and fix them if there are any."
        ++ "- You must have an optimised code"
        ++ "- Keep the same number of lines as the input"
        ++ "**- You DO NOT modify the context file**"⟩,
     ⟨"user", "Fix only this code segment:\n```" ++ ext ++ "\n" ++ selected ++ "\n```"
        ++ "Here the context file You DO NOT modify it:\n```" ++ ext ++ "\n" ++ full ++ "\n```"⟩]
  | _, _ =>
    if truthyOpt error then
      [⟨"system", "You are an expert code debugging assistant. Analyze the provided code, with the following rules:"
          ++ "The code is in " ++ ext
          ++ "- identify errors and provide a corrected version as a code snippet."
          ++ "- You must only send the corrected code in your response."
          ++ "- Fix any errors in the code."
          ++ "- Make improvements if necessary."
          ++ "- Check for security vulnerabilities and fix them if there are any."
          ++ "- You must have an optimised code"⟩,
       ⟨"user", "Here is the code with the error:\n```" ++ ext ++ "\n" ++ full ++ "\n```"
          ++ "The error is: " ++ error.getD ""⟩]
    else if truthyOpt comments then
      [⟨"system", "You are an expert code debugging assistant. Analyze the provided code, with the following rules:"
          ++ "The code is in " ++ ext
          ++ "- identify errors and provide a corrected version as a code snippet."
          ++ "- You must only send the corrected code in your response."
          ++ "- Fix any errors in the code."
          ++ "- Make improvements if necessary."
          ++ "- Check for security vulnerabilities and fix them if there are any."
          ++ "- You must have an optimised code"
          ++ "- You must add comments the code nicelly to understand it"⟩,
       ⟨"user", "Here is the code answer with the raw fixed code:\n```" ++ ext ++ "\n" ++ full ++ "\n```"⟩]
    else
      [⟨"system", "You are an expert code debugging assistant. Analyze the provided code, with the following rules:"
          ++ "The code is in " ++ ext
          ++ "- identify errors and provide a corrected version as a code snippet."
          ++ "- You must only send the corrected code in your response without any comments."
          ++ "- Fix any errors in the code."
          ++ "- Make improvements if necessary."
          ++ "- Check for security vulnerabilities and fix them if there are any."
          ++ "- You must have an optimised code"⟩,
       ⟨"user", "Here is the code with the error:\n```" ++ ext ++ "\n" ++ full ++ "\n```"⟩]

/-- Observable outcome of one `validate_and_save` run: whether the
confirmation prompt was reached, the backup created (path and content) if
any, and the content of the target file afterwards. -/
structure SaveTrace where
  prompted : Bool
  backup : Option (List Char × List Char)
  finalContent : List Char
deriving DecidableEq

/-- The backup path built by main.py line 146:
`f"_backup/{original_file}.{time.strftime(...)}.bak"` — the file path as
given on the command line, not its basename. -/
def backupNameMain (originalFile ts : List Char) : List Char :=
  ("_backup/").toList ++ originalFile ++ (".").toList ++ ts ++ (".bak").toList

/-- `os.path.basename` for the POSIX relative paths this tool handles: the
part after the last slash. -/
def basename (p : List Char) : List Char :=
  p.foldl (fun acc c => if c = '/' then [] else acc ++ [c]) []

/-- The backup path built by main2.py line 171:
`os.path.join("_backup", f"{os.path.basename(original_file)}.{...}.bak")`. -/
def backupNameMain2 (originalFile ts : List Char) : List Char :=
  ("_backup/").toList ++ basename originalFile ++ (".").toList ++ ts ++ (".bak").toList

/-- The confirmation answer that proceeds. -/
def yesAnswer : List Char := ['y']

/-- `validate_and_save` of main.py (lines 122-152) as a pure trace.
`fixedCode = none` models `fixed_code` being `None`; the empty string is
also falsy in `if not fixed_code`.  The diff is computed and printed, but
main.py never tests whether it is empty: the prompt is always reached, the
answer is `input().strip().lower()`, and only the answer `y` leads to the
rename-to-backup and the write. -/
def validate_and_save_main (originalFile ts originalCode : List Char)
    (fixedCode : Option (List Char)) (userInput : List Char) : SaveTrace :=
  match fixedCode with
  | none => ⟨false, none, originalCode⟩
  | some f =>
    if f = [] then ⟨false, none, originalCode⟩
    else if pyLower (pyStrip userInput) = yesAnswer then
      ⟨true, some (backupNameMain originalFile ts, originalCode), f⟩
    else ⟨true, none, originalCode⟩

/-- `validate_and_save` of main2.py (lines 136-178) as a pure trace.  Unlike
main.py it materialises the unified diff and returns before the prompt when
the diff is empty — which happens exactly when the two `splitlines()` line
sequences are equal — and its backup path uses the basename. -/
def validate_and_save_main2 (originalFile ts originalCode : List Char)
    (fixedCode : Option (List Char)) (userInput : List Char) : SaveTrace :=
  match fixedCode with
  | none => ⟨false, none, originalCode⟩
  | some f =>
    if f = [] then ⟨false, none, originalCode⟩
    else if pySplitlines originalCode = pySplitlines f then ⟨false, none, originalCode⟩
    else if pyLower (pyStrip userInput) = yesAnswer then
      ⟨true, some (backupNameMain2 originalFile ts, originalCode), f⟩
    else ⟨true, none, originalCode⟩

/-- Outcome of the one `requests.post` call in `send_request`: either a
response body whose `choices[0].message.content` is `content`, or a
`requests.exceptions.RequestException` (connection error, timeout, or the
`raise_for_status` HTTP-status error). -/
inductive ReqResult
  | ok (content : List Char)
  | requestError
deriving DecidableEq

/-- `send_request` (main.py lines 18-39): the `try`/`except` block catches
every `RequestException` and returns `None`, so the function is total — a
transport or HTTP-status failure becomes the explicit marker `none` instead
of an exception. -/
def send_request : ReqResult → Option (List Char)
  | ReqResult.ok c => some c
  | ReqResult.requestError => none

/-- The response-handling tail of main.py's `analyze_and_fix_code`
(lines 108-120): on a failed request return `(full_code, None)`; on success
extract the code and, in range mode, splice it into the line list. -/
def analyze_and_fix_code_main (lines : List (List Char))
    (range : Option (Nat × Nat)) (req : ReqResult) : List Char × Option (List Char) :=
  let full := lines.flatten
  match send_request req with
  | none => (full, none)
  | some raw =>
    let fixed := extract_code raw
    match range with
    | some (s, e) => (full, some (mergeSegment lines s e (pySplitlinesKeep fixed)).flatten)
    | none => (full, some fixed)

/-- main.py's pipeline after argument validation: analyze, then
validate-and-save. -/
def runMain (file ts : List Char) (lines : List (List Char))
    (range : Option (Nat × Nat)) (req : ReqResult) (userInput : List Char) : SaveTrace :=
  let p := analyze_and_fix_code_main lines range req
  validate_and_save_main file ts p.1 p.2 userInput

/-- Result of main.py's command-line range validation. -/
inductive RangeCheck
  | noRange
  | withRange (s e : Int)
  | aborted
deriving DecidableEq

/-- The range checks in main.py's `main` (lines 169-179): abort when only one
of `--start`/`--end` is given, when `start > end`, or when `start < 1`.
No comparison against the file's line count is made. -/
def checkArgsMain : Option Int → Option Int → RangeCheck
  | none, none => RangeCheck.noRange
  | some s, some e =>
    if s > e then RangeCheck.aborted
    else if s < 1 then RangeCheck.aborted
    else RangeCheck.withRange s e
  | some _, none => RangeCheck.aborted
  | none, some _ => RangeCheck.aborted

/-- The range guard inside main2.py's `analyze_and_fix_code` (lines 82-85):
`start_line < 1 or end_line > len(lines) or start_line > end_line` aborts
(before any request is sent). -/
def checkRangeMain2 (numLines : Nat) (s e : Int) : Bool :=
  !(decide (s < 1) || decide (e > (numLines : Int)) || decide (s > e))

/-- Outcome of main.py's `main`: aborted during argument validation, or ran
the pipeline and produced a save trace. -/
inductive MainOutcome
  | abortedArgs
  | ran (t : SaveTrace)
deriving DecidableEq

/-- main.py's `main` (lines 154-182) after the availability probe: validate
the range arguments, then run the pipeline (1-indexed values are passed on
unchanged; `Int.toNat` is safe because validation enforced `start ≥ 1`). -/
def mainPyEntry (file ts : List Char) (lines : List (List Char))
    (startArg endArg : Option Int) (req : ReqResult) (userInput : List Char) : MainOutcome :=
  match checkArgsMain startArg endArg with
  | RangeCheck.aborted => MainOutcome.abortedArgs
  | RangeCheck.noRange => MainOutcome.ran (runMain file ts lines none req userInput)
  | RangeCheck.withRange s e =>
    MainOutcome.ran (runMain file ts lines (some (s.toNat, e.toNat)) req userInput)

/-- A list starting with a non-backtick character is not fence-headed. -/
theorem fence_not_prefix_cons (c : Char) (l : List Char) (h : c ≠ fenceChar) :
    fenceChars.isPrefixOf (c :: l) = false := by
  simp [fenceChars, List.isPrefixOf]
  intro he
  exact absurd he.symm h

/-- The fence delimiter is a prefix of itself followed by anything. -/
theorem fence_isPrefixOf_append (X : List Char) :
    fenceChars.isPrefixOf (fenceChars ++ X) = true := by
  simp [fenceChars, List.isPrefixOf]

/-- The lazy capture stops at the first closing fence: on `b ++ ``` ++ X`
with no backtick inside `b`, it captures exactly `b`. -/
theorem splitAtFence_append (b X : List Char) (hb : fenceChar ∉ b) :
    splitAtFence (b ++ fenceChars ++ X) = some b := by
  induction b with
  | nil =>
    show splitAtFence (fenceChars ++ X) = some []
    simp only [fenceChars, List.cons_append, List.nil_append]
    rw [splitAtFence]
    simp [show fenceChars.isPrefixOf (fenceChar :: fenceChar :: fenceChar :: X) = true from by
      simp [fenceChars, List.isPrefixOf]]
  | cons x b ih =>
    have hx : x ≠ fenceChar := fun hx => hb (hx ▸ List.mem_cons_self x b)
    have hb' : fenceChar ∉ b := fun hm => hb (List.mem_cons_of_mem x hm)
    show splitAtFence (x :: (b ++ fenceChars ++ X)) = some (x :: b)
    rw [splitAtFence]
    simp only [fence_not_prefix_cons x _ hx, Bool.false_eq_true, if_false, ih hb']
    rfl

/-- Dropping the maximal word-character run over a word tag stops exactly at
the newline that ends the opening fence line. -/
theorem dropWhile_word_tag (tag rest : List Char) (htag : tag.all isWordChar = true) :
    (tag ++ '\n' :: rest).dropWhile isWordChar = '\n' :: rest := by
  induction tag with
  | nil => simp [List.dropWhile, isWordChar]
  | cons t tag ih =>
    simp only [List.all_cons, Bool.and_eq_true] at htag
    simp [List.dropWhile, htag.1, ih htag.2]

/-- At the opening fence, the regex consumes the fence, a word tag and the
newline, and captures up to the first closing fence. -/
theorem matchFenceAt_spec (tag b X : List Char)
    (htag : tag.all isWordChar = true) (hb : fenceChar ∉ b) :
    matchFenceAt (fenceChars ++ (tag ++ '\n' :: (b ++ fenceChars ++ X))) = some b := by
  rw [matchFenceAt]
  rw [fence_isPrefixOf_append]
  have hdrop : (fenceChars ++ (tag ++ '\n' :: (b ++ fenceChars ++ X))).drop 3
      = tag ++ '\n' :: (b ++ fenceChars ++ X) := by
    simp [fenceChars]
  rw [if_pos rfl, hdrop, dropWhile_word_tag _ _ htag]
  simp only [if_pos rfl]
  exact splitAtFence_append b X hb

/-- `re.search` skips any backtick-free text before the first fence. -/
theorem searchFence_append (a r : List Char) (ha : fenceChar ∉ a) :
    searchFence (a ++ r) = searchFence r := by
  induction a with
  | nil => rfl
  | cons x a ih =>
    have hx : x ≠ fenceChar := fun hx => ha (hx ▸ List.mem_cons_self x a)
    have ha' : fenceChar ∉ a := fun hm => ha (List.mem_cons_of_mem x hm)
    show searchFence (x :: (a ++ r)) = searchFence r
    rw [searchFence, matchFenceAt, fence_not_prefix_cons x _ hx]
    simp [ih ha']

/-- C2: the claim states that when a fenced block is present the extracted
text is the fence's interior with a single layer of surrounding whitespace
trimmed.  On the response `` ```\ncode\n``` `` the interior between the two
fences is `\ncode\n`, whose whitespace-trimmed form is `code`; but
`extract_code` returns `code\n`, keeping the newline standing before the
closing fence.  So the claim, as stated, is false at this input. -/
theorem C2_extract_counterexample :
    extract_code (("```\ncode\n```").toList) = ("code\n").toList ∧
    pyStrip (("\ncode\n").toList) = ("code").toList ∧
    extract_code (("```\ncode\n```").toList) ≠ pyStrip (("\ncode\n").toList) := by
  decide

/-- C2 (amended): on response text of the shape
`a ++ ``` ++ tag ++ "\n" ++ b ++ ``` ++ c` — backtick-free prefix `a`, word
tag, backtick-free body `b` — extraction returns the capture `b` verbatim:
the newline ending the opening fence line is consumed, but nothing is
trimmed from the capture, so a newline standing before the closing fence is
kept; later fenced blocks (inside `c`) are ignored.  When the regex finds no
fenced block, extraction returns the whole response stripped of leading and
trailing whitespace. -/
theorem C2_extract_amended (a tag b c : List Char)
    (ha : fenceChar ∉ a) (htag : tag.all isWordChar = true) (hb : fenceChar ∉ b) :
    extract_code (a ++ (fenceChars ++ (tag ++ '\n' :: (b ++ fenceChars ++ c)))) = b ∧
    (∀ s : List Char, searchFence s = none → extract_code s = pyStrip s) := by
  constructor
  · rw [extract_code, searchFence_append a _ ha]
    have h1 : searchFence (fenceChars ++ (tag ++ '\n' :: (b ++ fenceChars ++ c))) = some b := by
      show searchFence (fenceChar :: (fenceChar :: fenceChar :: (tag ++ '\n' :: (b ++ fenceChars ++ c)))) = some b
      rw [searchFence]
      rw [show (fenceChar :: (fenceChar :: fenceChar :: (tag ++ '\n' :: (b ++ fenceChars ++ c))))
          = fenceChars ++ (tag ++ '\n' :: (b ++ fenceChars ++ c)) from rfl]
      rw [matchFenceAt_spec tag b c htag hb]
    rw [h1]
  · intro s hs
    rw [extract_code, hs]

/-- C2 amended, instantiated: response `Answer: ```python\nx = 1\n``` done`
extracts `x = 1\n`, and a fence-free response is returned stripped. -/
theorem C2_extract_amended_witness :
    extract_code (("Answer: ").toList ++ (fenceChars ++ (("python").toList
        ++ '\n' :: ((("x = 1\n").toList) ++ fenceChars ++ (" done").toList)))) = ("x = 1\n").toList ∧
    extract_code (("  plain text  ").toList) = pyStrip (("  plain text  ").toList) := by
  refine ⟨(C2_extract_amended (("Answer: ").toList) (("python").toList) (("x = 1\n").toList)
      ((" done").toList) (by decide) (by decide) (by decide)).1, ?_⟩
  exact (C2_extract_amended [] [] [] [] (by decide) (by decide) (by decide)).2
    (("  plain text  ").toList) (by decide)

/-- C1: for every original line sequence and valid range
`1 ≤ start ≤ end ≤ line count`, the merge replaces exactly the 1-indexed
inclusive slice `[start, end]` with the lines of the extracted fix split
preserving terminators: the merged list is the splice, every line before the
slice and the whole tail after it are byte-identical to the original (both
as blocks and line by line, at the corresponding shifted positions), and the
replaced region holds exactly the fix's lines. -/
theorem C1_segment_merge (lines : List (List Char)) (s e : Nat) (fixText : List Char)
    (merged : List (List Char))
    (h1 : 1 ≤ s) (h2 : s ≤ e) (h3 : e ≤ lines.length)
    (hm : merged = mergeSegment lines s e (pySplitlinesKeep fixText)) :
    merged = lines.take (s - 1) ++ pySplitlinesKeep fixText ++ lines.drop e ∧
    merged.take (s - 1) = lines.take (s - 1) ∧
    merged.drop (s - 1 + (pySplitlinesKeep fixText).length) = lines.drop e ∧
    (∀ i, i < s - 1 → merged[i]? = lines[i]?) ∧
    (∀ j, merged[s - 1 + (pySplitlinesKeep fixText).length + j]? = lines[e + j]?) ∧
    (merged.drop (s - 1)).take (pySplitlinesKeep fixText).length
      = pySplitlinesKeep fixText := by
  obtain ⟨F, hF⟩ : ∃ F, pySplitlinesKeep fixText = F := ⟨_, rfl⟩
  rw [hF] at hm ⊢
  have hlen : (lines.take (s - 1)).length = s - 1 := by
    rw [List.length_take]
    omega
  have hassoc : merged = lines.take (s - 1) ++ (F ++ lines.drop e) := by
    rw [hm, mergeSegment, List.append_assoc]
  have htake : merged.take (s - 1) = lines.take (s - 1) := by
    rw [hassoc, List.take_left' hlen]
  have hdropmid : merged.drop (s - 1) = F ++ lines.drop e := by
    rw [hassoc, List.drop_left' hlen]
  have hdrop : merged.drop (s - 1 + F.length) = lines.drop e := by
    have := List.drop_drop F.length (s - 1) merged
    rw [hdropmid] at this
    rw [← this, List.drop_left]
  refine ⟨by rw [hassoc, List.append_assoc], htake, hdrop, ?_, ?_, ?_⟩
  · intro i hi
    have := congrArg (fun l => l[i]?) htake
    simpa [List.getElem?_take, hi] using this
  · intro j
    have h4 := List.getElem?_drop merged (s - 1 + F.length) j
    have h5 := List.getElem?_drop lines e j
    rw [hdrop] at h4
    rw [← h4, ← h5]
  · rw [hdropmid, List.take_left]

/-- C1 instantiated on the spec's example scenario: a five-line file with
range 2-3 and fix `fixed_line2\nfixed_line3\n`: lines 1, 4, 5 unchanged,
lines 2-3 replaced. -/
theorem C1_segment_merge_witness :
    mergeSegment [("l1\n").toList, ("l2\n").toList, ("l3\n").toList, ("l4\n").toList,
        ("l5\n").toList] 2 3 (pySplitlinesKeep (("fixed_line2\nfixed_line3\n").toList))
      = [("l1\n").toList, ("fixed_line2\n").toList, ("fixed_line3\n").toList,
        ("l4\n").toList, ("l5\n").toList] := by
  have h := C1_segment_merge
    [("l1\n").toList, ("l2\n").toList, ("l3\n").toList, ("l4\n").toList, ("l5\n").toList]
    2 3 (("fixed_line2\nfixed_line3\n").toList)
    (mergeSegment [("l1\n").toList, ("l2\n").toList, ("l3\n").toList, ("l4\n").toList,
        ("l5\n").toList] 2 3 (pySplitlinesKeep (("fixed_line2\nfixed_line3\n").toList)))
    (by decide) (by decide) (by decide) rfl
  rw [h.1]
  decide

/-- C3: the claim states that an empty unified diff stops the controller
before the prompt, the backup and the write.  In main.py this is false: with
original `a\n` and candidate `a` the two `splitlines()` sequences are equal
(so the unified diff is empty), yet the confirmation prompt is reached and,
on the answer `y`, a backup is created and the file is rewritten. -/
theorem C3_empty_diff_counterexample :
    pySplitlines (("a\n").toList) = pySplitlines (("a").toList) ∧
    validate_and_save_main (("a.py").toList) (("20250101120000").toList) (("a\n").toList)
        (some (("a").toList)) (("y").toList)
      = ⟨true, some (backupNameMain (("a.py").toList) (("20250101120000").toList),
          ("a\n").toList), ("a").toList⟩ := by
  decide

/-- C3 (amended): main2.py implements the claim — when the candidate is
truthy and its `splitlines()` equals the original's (exactly the empty-diff
condition), it stops with no prompt, no backup and no write.  main.py has no
such gate: its prompt is reached regardless of the diff being empty. -/
theorem C3_empty_diff_amended (file ts orig f input : List Char)
    (hne : f ≠ []) (hdiff : pySplitlines orig = pySplitlines f) :
    validate_and_save_main2 file ts orig (some f) input = ⟨false, none, orig⟩ ∧
    (validate_and_save_main file ts orig (some f) input).prompted = true := by
  constructor
  · simp [validate_and_save_main2, hne, hdiff]
  · by_cases hy : pyLower (pyStrip input) = yesAnswer <;>
      simp [validate_and_save_main, hne, hy]

/-- C3 amended, instantiated at original `a\n`, candidate `a`, input `y`. -/
theorem C3_empty_diff_amended_witness :
    validate_and_save_main2 (("a.py").toList) (("20250101120000").toList) (("a\n").toList)
        (some (("a").toList)) (("y").toList) = ⟨false, none, ("a\n").toList⟩ ∧
    (validate_and_save_main (("a.py").toList) (("20250101120000").toList) (("a\n").toList)
        (some (("a").toList)) (("y").toList)).prompted = true :=
  C3_empty_diff_amended (("a.py").toList) (("20250101120000").toList) (("a\n").toList)
    (("a").toList) (("y").toList) (by decide) (by decide)

/-- C4: a transport or HTTP-status failure of the completion call is caught
inside `send_request` and becomes the explicit marker `None`; the pipeline
then returns `(full_code, None)` and `validate_and_save` stops at the
falsiness check, so no prompt is shown, no backup is created and the target
file keeps its original content. -/
theorem C4_completion_failure (file ts : List Char) (lines : List (List Char))
    (range : Option (Nat × Nat)) (input : List Char) :
    send_request ReqResult.requestError = none ∧
    runMain file ts lines range ReqResult.requestError input
      = ⟨false, none, lines.flatten⟩ := by
  exact ⟨rfl, by simp [runMain, analyze_and_fix_code_main, send_request,
    validate_and_save_main]⟩

/-- C5: the claim states that only the exact answer `y` (case-insensitively)
proceeds.  The code lowercases after stripping whitespace, so the answer
` y` — which is not `y` even case-insensitively — also proceeds: a backup is
created and the file rewritten. -/
theorem C5_confirm_counterexample :
    pyLower ((" y").toList) ≠ ("y").toList ∧
    (" y").toList ≠ ("y").toList ∧
    validate_and_save_main (("a.py").toList) (("20250101120000").toList) (("a\n").toList)
        (some (("b\n").toList)) ((" y").toList)
      = ⟨true, some (backupNameMain (("a.py").toList) (("20250101120000").toList),
          ("a\n").toList), ("b\n").toList⟩ := by
  decide

/-- C5 (amended): with a truthy candidate, exactly the inputs whose
whitespace-stripped, lowercased form is `y` proceed to the backup and write;
every other input cancels with no side effects — prompt shown, no backup,
file unchanged.  main2.py behaves the same whenever the diff is
nonempty. -/
theorem C5_confirm_amended (file ts orig f input : List Char) (hne : f ≠ []) :
    (pyLower (pyStrip input) = yesAnswer →
      validate_and_save_main file ts orig (some f) input
        = ⟨true, some (backupNameMain file ts, orig), f⟩) ∧
    (pyLower (pyStrip input) ≠ yesAnswer →
      validate_and_save_main file ts orig (some f) input = ⟨true, none, orig⟩) ∧
    (pySplitlines orig ≠ pySplitlines f → pyLower (pyStrip input) ≠ yesAnswer →
      validate_and_save_main2 file ts orig (some f) input = ⟨true, none, orig⟩) := by
  refine ⟨fun hy => ?_, fun hn => ?_, fun hd hn => ?_⟩
  · simp [validate_and_save_main, hne, hy]
  · simp [validate_and_save_main, hne, hn]
  · simp [validate_and_save_main2, hne, hd, hn]

/-- C5 amended, instantiated: the empty input cancels in both variants and
the file keeps its original content. -/
theorem C5_confirm_amended_witness :
    validate_and_save_main (("a.py").toList) (("20250101120000").toList) (("a\n").toList)
        (some (("b\n").toList)) [] = ⟨true, none, ("a\n").toList⟩ ∧
    validate_and_save_main2 (("a.py").toList) (("20250101120000").toList) (("a\n").toList)
        (some (("b\n").toList)) [] = ⟨true, none, ("a\n").toList⟩ :=
  ⟨(C5_confirm_amended (("a.py").toList) (("20250101120000").toList) (("a\n").toList)
      (("b\n").toList) [] (by decide)).2.1 (by decide),
   (C5_confirm_amended (("a.py").toList) (("20250101120000").toList) (("a\n").toList)
      (("b\n").toList) [] (by decide)).2.2 (by decide) (by decide)⟩

/-- C6: the claim states that a line-count mismatch in range mode emits a
warning.  In main.py no warning exists: with range 2-3 (two lines expected)
and a one-line fix, the merge completes but `warned` is false. -/
theorem C6_warning_counterexample :
    (pySplitlinesKeep (("one\n").toList)).length ≠ 3 - 2 + 1 ∧
    rangeFixMainPy [("l1\n").toList, ("l2\n").toList, ("l3\n").toList, ("l4\n").toList]
        2 3 (("one\n").toList)
      = ⟨false, [("l1\n").toList, ("one\n").toList, ("l4\n").toList]⟩ := by
  decide

/-- C6 (amended): in main2.py the warning fires exactly when the fix's line
count differs from `end - start + 1`, and the merge completes at the
boundary indices regardless; in main.py the same merge completes but no
warning is ever emitted. -/
theorem C6_warning_amended (lines : List (List Char)) (s e : Nat) (fixText : List Char)
    (_h1 : 1 ≤ s) (_h2 : s ≤ e) :
    ((rangeFixMain2Py lines s e fixText).warned = true ↔
      (pySplitlinesKeep fixText).length ≠ e - s + 1) ∧
    (rangeFixMain2Py lines s e fixText).merged
      = lines.take (s - 1) ++ pySplitlinesKeep fixText ++ lines.drop e ∧
    (rangeFixMainPy lines s e fixText).warned = false ∧
    (rangeFixMainPy lines s e fixText).merged
      = lines.take (s - 1) ++ pySplitlinesKeep fixText ++ lines.drop e := by
  refine ⟨?_, rfl, rfl, rfl⟩
  simp [rangeFixMain2Py]

/-- C6 amended, instantiated on a four-line file with range 2-3 and a
one-line fix: main2.py warns, main.py does not, both merge. -/
theorem C6_warning_amended_witness :
    ((rangeFixMain2Py [("l1\n").toList, ("l2\n").toList, ("l3\n").toList, ("l4\n").toList]
        2 3 (("one\n").toList)).warned = true ↔
      (pySplitlinesKeep (("one\n").toList)).length ≠ 3 - 2 + 1) ∧
    (rangeFixMain2Py [("l1\n").toList, ("l2\n").toList, ("l3\n").toList, ("l4\n").toList]
        2 3 (("one\n").toList)).merged
      = [("l1\n").toList, ("l2\n").toList, ("l3\n").toList, ("l4\n").toList].take (2 - 1)
        ++ pySplitlinesKeep (("one\n").toList)
        ++ [("l1\n").toList, ("l2\n").toList, ("l3\n").toList, ("l4\n").toList].drop 3 ∧
    (rangeFixMainPy [("l1\n").toList, ("l2\n").toList, ("l3\n").toList, ("l4\n").toList]
        2 3 (("one\n").toList)).warned = false ∧
    (rangeFixMainPy [("l1\n").toList, ("l2\n").toList, ("l3\n").toList, ("l4\n").toList]
        2 3 (("one\n").toList)).merged
      = [("l1\n").toList, ("l2\n").toList, ("l3\n").toList, ("l4\n").toList].take (2 - 1)
        ++ pySplitlinesKeep (("one\n").toList)
        ++ [("l1\n").toList, ("l2\n").toList, ("l3\n").toList, ("l4\n").toList].drop 3 :=
  C6_warning_amended [("l1\n").toList, ("l2\n").toList, ("l3\n").toList, ("l4\n").toList]
    2 3 (("one\n").toList) (by decide) (by decide)

/-- C7: the claim states that a range whose end exceeds the file's line count
is rejected before the fix request.  In main.py it is not: on a two-line
file, `--start 1 --end 5` passes argument validation (`withRange 1 5`) and
the whole pipeline runs to a trace instead of aborting. -/
theorem C7_range_counterexample :
    checkArgsMain (some 1) (some 5) = RangeCheck.withRange 1 5 ∧
    ¬((5 : Int) ≤ (([("a\n").toList, ("b\n").toList]).length : Int)) ∧
    mainPyEntry (("a.py").toList) (("20250101120000").toList)
        [("a\n").toList, ("b\n").toList] (some 1) (some 5)
        (ReqResult.ok (("```\nX\n```").toList)) (("n").toList)
      ≠ MainOutcome.abortedArgs := by
  decide

/-- C7 (amended): main2.py enforces the full invariant — its range guard
passes exactly when `1 ≤ start ≤ end ≤ line count`, aborting before any
request otherwise.  main.py aborts on a missing half of the pair, on
`start > end` and on `start < 1`, so a range it accepts satisfies only
`1 ≤ start ≤ end`; it never compares `end` with the line count. -/
theorem C7_range_amended :
    (∀ s e : Int, checkArgsMain (some s) (some e) = RangeCheck.withRange s e →
      1 ≤ s ∧ s ≤ e) ∧
    (∀ s : Int, checkArgsMain (some s) none = RangeCheck.aborted) ∧
    (∀ e : Int, checkArgsMain none (some e) = RangeCheck.aborted) ∧
    (∀ (numLines : Nat) (s e : Int), checkRangeMain2 numLines s e = true →
      1 ≤ s ∧ s ≤ e ∧ e ≤ (numLines : Int)) := by
  refine ⟨fun s e h => ?_, fun s => rfl, fun e => rfl, fun numLines s e h => ?_⟩
  · rw [checkArgsMain] at h
    by_cases h1 : s > e
    · simp [h1] at h
    · by_cases h2 : s < 1
      · simp [h1, h2] at h
      · omega
  · simp only [checkRangeMain2, Bool.not_eq_true', Bool.or_eq_false_iff,
      decide_eq_false_iff_not, not_lt] at h
    omega

/-- C7 amended, instantiated: an accepted main.py range satisfies
`1 ≤ start ≤ end`, and a range accepted by main2.py's guard on a three-line
file also has its end within the file. -/
theorem C7_range_amended_witness :
    (1 ≤ (2 : Int) ∧ (2 : Int) ≤ 3) ∧
    (1 ≤ (2 : Int) ∧ (2 : Int) ≤ 3 ∧ (3 : Int) ≤ ((3 : Nat) : Int)) :=
  ⟨C7_range_amended.1 2 3 (by decide), C7_range_amended.2.2.2 3 2 3 (by decide)⟩

/-- C8: the claim states the backup lands at
`_backup/<original-basename>.<timestamp>.bak`.  main.py interpolates the
path as given, not its basename: for `subdir/a.py` the confirmed apply
records the backup at `_backup/subdir/a.py.<ts>.bak`, not at the claimed
`_backup/a.py.<ts>.bak`. -/
theorem C8_backup_counterexample :
    validate_and_save_main (("subdir/a.py").toList) (("20250101120000").toList)
        (("old\n").toList) (some (("new\n").toList)) (("y").toList)
      = ⟨true, some (backupNameMain (("subdir/a.py").toList) (("20250101120000").toList),
          ("old\n").toList), ("new\n").toList⟩ ∧
    backupNameMain (("subdir/a.py").toList) (("20250101120000").toList)
      ≠ ("_backup/a.py.20250101120000.bak").toList ∧
    backupNameMain (("subdir/a.py").toList) (("20250101120000").toList)
      = ("_backup/subdir/a.py.20250101120000.bak").toList := by
  decide

/-- C8 (amended): on confirmed apply both variants record a backup holding
exactly the original text and then make the target hold exactly the
candidate text; main2.py's backup path is
`_backup/<basename>.<timestamp>.bak` as the claim states, while main.py's is
`_backup/<given path>.<timestamp>.bak`, which agrees only when the given
path has no directory part. -/
theorem C8_backup_amended (file ts orig f input : List Char) (hne : f ≠ [])
    (hy : pyLower (pyStrip input) = yesAnswer) :
    validate_and_save_main file ts orig (some f) input
      = ⟨true, some (backupNameMain file ts, orig), f⟩ ∧
    (pySplitlines orig ≠ pySplitlines f →
      validate_and_save_main2 file ts orig (some f) input
        = ⟨true, some (backupNameMain2 file ts, orig), f⟩) ∧
    backupNameMain2 file ts
      = ("_backup/").toList ++ basename file ++ (".").toList ++ ts ++ (".bak").toList := by
  refine ⟨?_, fun hd => ?_, rfl⟩
  · simp [validate_and_save_main, hne, hy]
  · simp [validate_and_save_main2, hne, hd, hy]

/-- C8 amended, instantiated on `subdir/a.py`: the main.py backup keeps the
full path under `_backup/`, the main2.py backup uses the basename, and both
preserve the original bytes while the file receives the candidate text. -/
theorem C8_backup_amended_witness :
    validate_and_save_main (("subdir/a.py").toList) (("20250101120000").toList)
        (("old\n").toList) (some (("new\n").toList)) (("Y").toList)
      = ⟨true, some (backupNameMain (("subdir/a.py").toList) (("20250101120000").toList),
          ("old\n").toList), ("new\n").toList⟩ ∧
    validate_and_save_main2 (("subdir/a.py").toList) (("20250101120000").toList)
        (("old\n").toList) (some (("new\n").toList)) (("Y").toList)
      = ⟨true, some (backupNameMain2 (("subdir/a.py").toList) (("20250101120000").toList),
          ("old\n").toList), ("new\n").toList⟩ :=
  ⟨(C8_backup_amended (("subdir/a.py").toList) (("20250101120000").toList)
      (("old\n").toList) (("new\n").toList) (("Y").toList) (by decide) (by decide)).1,
   (C8_backup_amended (("subdir/a.py").toList) (("20250101120000").toList)
      (("old\n").toList) (("new\n").toList) (("Y").toList) (by decide) (by decide)).2.1
      (by decide)⟩

/-- C9: exactly one prompt-builder mode is active per invocation.  The
`if`/`elif` chain of main.py gives the precedence range, then error, then
comments, then the whole-file default — where a supplied range means both
endpoints present, and a supplied error or comments value counts only when
truthy (argparse leaves an unsupplied option `None`; the empty string is
falsy).  In every case the produced messages are exactly the winning mode's
two messages. -/
theorem C9_mode_selection (ext : String) (lines : List String)
    (error comments : Option String) :
    (∀ s e : Nat, analyze_messages_main ext lines (some s) (some e) error comments
        = rangeMessages ext (String.join (pySlice lines (s - 1) e)) (String.join lines)) ∧
    (∀ startLine endLine : Option Nat, (startLine = none ∨ endLine = none) →
      truthyOpt error = true →
      analyze_messages_main ext lines startLine endLine error comments
        = errorMessages ext (String.join lines) (error.getD "")) ∧
    (∀ startLine endLine : Option Nat, (startLine = none ∨ endLine = none) →
      truthyOpt error = false → truthyOpt comments = true →
      analyze_messages_main ext lines startLine endLine error comments
        = commentsMessages ext (String.join lines)) ∧
    (∀ startLine endLine : Option Nat, (startLine = none ∨ endLine = none) →
      truthyOpt error = false → truthyOpt comments = false →
      analyze_messages_main ext lines startLine endLine error comments
        = defaultMessages ext (String.join lines)) ∧
    (∀ startLine endLine : Option Nat,
      (analyze_messages_main ext lines startLine endLine error comments).length = 2) := by
  refine ⟨fun s e => rfl, fun s? e? h he => ?_, fun s? e? h he hc => ?_,
    fun s? e? h he hc => ?_, fun s? e? => ?_⟩
  · match s?, e?, h with
    | none, _, _ => simp [analyze_messages_main, errorMessages, he]
    | some s, none, _ => simp [analyze_messages_main, errorMessages, he]
    | some s, some e, h => exact absurd h (by simp)
  · match s?, e?, h with
    | none, _, _ => simp [analyze_messages_main, commentsMessages, he, hc]
    | some s, none, _ => simp [analyze_messages_main, commentsMessages, he, hc]
    | some s, some e, h => exact absurd h (by simp)
  · match s?, e?, h with
    | none, _, _ => simp [analyze_messages_main, defaultMessages, he, hc]
    | some s, none, _ => simp [analyze_messages_main, defaultMessages, he, hc]
    | some s, some e, h => exact absurd h (by simp)
  · match s?, e? with
    | none, none =>
      by_cases he : truthyOpt error = true <;> by_cases hc : truthyOpt comments = true <;>
        simp [analyze_messages_main, he, hc]
    | none, some e =>
      by_cases he : truthyOpt error = true <;> by_cases hc : truthyOpt comments = true <;>
        simp [analyze_messages_main, he, hc]
    | some s, none =>
      by_cases he : truthyOpt error = true <;> by_cases hc : truthyOpt comments = true <;>
        simp [analyze_messages_main, he, hc]
    | some s, some e => rfl

/-- C9 instantiated: with all optional inputs supplied at once, the range
mode wins; without a range, a truthy error beats the comments flag. -/
theorem C9_mode_selection_witness :
    analyze_messages_main "py" ["a\n", "b\n"] (some 1) (some 2) (some "boom") (some "add")
      = rangeMessages "py" (String.join (pySlice ["a\n", "b\n"] (1 - 1) 2))
          (String.join ["a\n", "b\n"]) ∧
    analyze_messages_main "py" ["a\n", "b\n"] none none (some "boom") (some "add")
      = errorMessages "py" (String.join ["a\n", "b\n"]) ((some "boom").getD "") :=
  ⟨(C9_mode_selection "py" ["a\n", "b\n"] (some "boom") (some "add")).1 1 2,
   (C9_mode_selection "py" ["a\n", "b\n"] (some "boom") (some "add")).2.1 none none
     (Or.inl rfl) (by decide)⟩

/-- C10: in main.py a range whose end exceeds the file's line count is
accepted, not rejected: argument validation passes any `1 ≤ start ≤ end`,
and for `end` beyond the file both the selected segment
`lines[start-1:end]` and the merge clamp at the last line — the segment is
everything from `start` to end-of-file, and the merge replaces it with the
fix.  The slicing operations are total: no exception arises. -/
theorem C10_clamped_range :
    (∀ s e : Int, 1 ≤ s → s ≤ e → checkArgsMain (some s) (some e) = RangeCheck.withRange s e) ∧
    (∀ (lines : List (List Char)) (s e : Nat) (F : List (List Char)),
      1 ≤ s → s ≤ e → lines.length < e →
      pySlice lines (s - 1) e = lines.drop (s - 1) ∧
      mergeSegment lines s e F = lines.take (s - 1) ++ F) := by
  constructor
  · intro s e h1 h2
    rw [checkArgsMain]
    rw [if_neg (by omega), if_neg (by omega)]
  · intro lines s e F h1 h2 h3
    constructor
    · rw [pySlice]
      apply List.take_of_length_le
      rw [List.length_drop]
      omega
    · rw [mergeSegment, List.drop_eq_nil_of_le (by omega), List.append_nil]

/-- C10 instantiated: on a two-line file, `--start 1 --end 7` is accepted,
the selected segment is the whole file, and the merge replaces everything
with the fix lines. -/
theorem C10_clamped_range_witness :
    checkArgsMain (some 1) (some 7) = RangeCheck.withRange 1 7 ∧
    pySlice [("a\n").toList, ("b\n").toList] (1 - 1) 7
        = [("a\n").toList, ("b\n").toList].drop (1 - 1) ∧
    mergeSegment [("a\n").toList, ("b\n").toList] 1 7 [("X\n").toList]
        = [("a\n").toList, ("b\n").toList].take (1 - 1) ++ [("X\n").toList] :=
  ⟨C10_clamped_range.1 1 7 (by decide) (by decide),
   (C10_clamped_range.2 [("a\n").toList, ("b\n").toList] 1 7 [("X\n").toList]
     (by decide) (by decide) (by decide)).1,
   (C10_clamped_range.2 [("a\n").toList, ("b\n").toList] 1 7 [("X\n").toList]
     (by decide) (by decide) (by decide)).2⟩
